import Mathlib

/- Verification of the LocalServer repository (src/AppServer.py) against its
specification.  The Flask handlers are shallowly embedded as pure functions
over an explicit server state; SQLite statements issued by a handler are
recorded in a trace as (statement text, bound parameters). -/

/-- A scalar SQLite/JSON value as it flows through the server. -/
inductive Val where
  | vnull
  | vint (n : Int)
  | vstr (s : String)
deriving DecidableEq

/-- The JSON body of an HTTP response: an error object, a flat object, or an
array of flat objects.  `err m` stands for the payload produced by
`jsonify({"error": m})` in the source. -/
inductive Body where
  | err (msg : String)
  | obj (fields : List (String × Val))
  | arr (items : List (List (String × Val)))
deriving DecidableEq

/-- A row of the MNSPP table (columns selected by `query_market_cap`).
`peR` embeds the `pe_ratio` column. -/
structure MnsppRow where
  symbol : String
  marketcap : Val
  peR : Val
  pb : Val
deriving DecidableEq

/-- A row of the Earning table (columns used by `query_earning`). -/
structure EarningRow where
  name : String
  date : Val
  price : Val
deriving DecidableEq

/-- A row of a per-symbol price table (columns used by `query_historical`,
`query_closing_price` and `query_latest_volume`). -/
structure PriceRow where
  id : Int
  name : String
  date : String
  price : Val
  volume : Val
deriving DecidableEq

/-- A price table: whether it has a `volume` column, and its rows in the
underlying table's row order. -/
structure PriceTable where
  hasVolume : Bool
  rows : List PriceRow
deriving DecidableEq

/-- The Finance.db file: the MNSPP table, the Earning table, and the named
per-symbol price tables. -/
structure FinanceDB where
  mnspp : List MnsppRow
  earning : List EarningRow
  tables : List (String × PriceTable)
deriving DecidableEq

/-- A row of the `users` table created by `init_user_db`. -/
structure UserRow where
  apple_user_id : String
  created_at : String
  last_login_at : Option String
  finance_expire_at : Option String
  finance_is_permanent : Int
  onews_expire_at : Option String
  onews_is_permanent : Int
deriving DecidableEq

/-- Server-visible storage state: `finance` is `none` when the Finance.db
file does not exist at FINANCE_DB_PATH (`get_finance_db` returns None),
`users` is the user database. -/
structure ServerState where
  finance : Option FinanceDB
  users : List UserRow
deriving DecidableEq

/-- Result of running one handler: the state after the request, the HTTP
status, the JSON body, and the trace of SQL statements submitted to the
engine, each with its bound parameter list. -/
structure HandlerOut where
  st : ServerState
  status : Int
  body : Body
  trace : List (String × List String)
deriving DecidableEq

/-- Lookup of a named table in the Finance database. -/
def lookupTable (db : FinanceDB) (t : String) : Option PriceTable :=
  (db.tables.find? (fun p => p.1 == t)).map (fun p => p.2)

/-- Column names reported by `PRAGMA table_info("t")` (lower-cased, as the
handlers lower-case them); an unknown table yields no rows. -/
def pragmaColumns (db : FinanceDB) (t : String) : List String :=
  match lookupTable db t with
  | none => []
  | some tbl => ["id", "date", "name", "price"] ++ (if tbl.hasVolume then ["volume"] else [])

/-- SQLite text comparison (memcmp order), as a Bool. -/
def leS (a b : String) : Bool := compare a b != Ordering.gt

/-- Insert a row into a date-ascending list (used to model ORDER BY date ASC). -/
def insertByDate (r : PriceRow) : List PriceRow → List PriceRow
  | [] => [r]
  | x :: xs => if leS r.date x.date then r :: x :: xs else x :: insertByDate r xs

/-- Sort rows ascending by date (ORDER BY date ASC). -/
def sortByDate : List PriceRow → List PriceRow
  | [] => []
  | x :: xs => insertByDate x (sortByDate xs)

/-- Insert a row into a date-descending list (used to model ORDER BY date DESC). -/
def insertByDateDesc (r : PriceRow) : List PriceRow → List PriceRow
  | [] => [r]
  | x :: xs => if leS x.date r.date then r :: x :: xs else x :: insertByDateDesc r xs

/-- Sort rows descending by date (ORDER BY date DESC). -/
def sortByDateDesc : List PriceRow → List PriceRow
  | [] => []
  | x :: xs => insertByDateDesc x (sortByDateDesc xs)

/-- The statement text of `query_market_cap` (a string literal in the source). -/
def marketCapQueryText : String :=
  "SELECT symbol, marketcap, pe_ratio, pb FROM \"MNSPP\""

/-- The statement text of the PRAGMA issued by `query_historical` and
`query_latest_volume`: the f-string interpolates the request's table name. -/
def pragmaText (t : String) : String :=
  "PRAGMA table_info(\"" ++ t ++ "\")"

/-- The statement text of the SELECT of `query_historical`: the f-string
interpolates the select clause and the request's table name. -/
def historicalQueryText (hasVol : Bool) (t : String) : String :=
  "SELECT id, date, price" ++ (if hasVol then ", volume" else "")
    ++ " FROM \"" ++ t ++ "\" WHERE name = ? AND date BETWEEN ? AND ? ORDER BY date ASC"

/-- The statement text of `query_earning` (a string literal in the source). -/
def earningQueryText : String :=
  "SELECT date, price FROM Earning WHERE name = ?"

/-- The statement text of the SELECT of `query_closing_price`: the f-string
interpolates the request's table name. -/
def closingQueryText (t : String) : String :=
  "SELECT price FROM \"" ++ t ++ "\" WHERE name = ? AND date = ? LIMIT 1"

/-- The statement text of the SELECT of `query_latest_volume`: the f-string
interpolates the request's table name. -/
def latestVolumeQueryText (t : String) : String :=
  "SELECT volume FROM \"" ++ t ++ "\" WHERE name = ? ORDER BY date DESC LIMIT 1"

/-- The 500 response produced when `get_finance_db` returns None. -/
def dbNotFound (st : ServerState) : HandlerOut :=
  ⟨st, 500, Body.err "Database not found", []⟩

/-- The 400 response produced when required query parameters are falsy. -/
def missingParams (st : ServerState) : HandlerOut :=
  ⟨st, 400, Body.err "Missing parameters", []⟩

/-- Serialization of an MNSPP row by `query_market_cap`. -/
def mnsppToObj (r : MnsppRow) : List (String × Val) :=
  [("symbol", Val.vstr r.symbol), ("marketCap", r.marketcap),
   ("peRatio", r.peR), ("pb", r.pb)]

/-- GET /api/Finance/query/market_cap. -/
def query_market_cap (st : ServerState) : HandlerOut :=
  match st.finance with
  | none => dbNotFound st
  | some db =>
      ⟨st, 200, Body.arr (db.mnspp.map mnsppToObj), [(marketCapQueryText, [])]⟩

/-- Serialization of one historical row (`volume` included iff the table has
the column). -/
def histItem (hasVol : Bool) (r : PriceRow) : List (String × Val) :=
  [("id", Val.vint r.id), ("date", Val.vstr r.date), ("price", r.price)]
    ++ (if hasVol then [("volume", r.volume)] else [])

/-- The two statements submitted by `query_historical` (the PRAGMA and the
SELECT, whose text depends on the PRAGMA's answer) with their bound
parameters. -/
def historicalTrace (db : FinanceDB) (t s sd ed : String) : List (String × List String) :=
  [(pragmaText t, []),
   (historicalQueryText ((pragmaColumns db t).contains "volume") t, [s, sd, ed])]

/-- GET /api/Finance/query/historical.  Parameter check first (Python
truthiness: absent or empty string is falsy), then the database check, then
the PRAGMA and the interpolated SELECT; a missing table makes the SELECT
raise, answered as a 500 error. -/
def query_historical (st : ServerState)
    (symbol table_name start_date end_date : Option String) : HandlerOut :=
  match symbol, table_name, start_date, end_date with
  | some s, some t, some sd, some ed =>
    if s = "" ∨ t = "" ∨ sd = "" ∨ ed = "" then missingParams st
    else match st.finance with
      | none => dbNotFound st
      | some db =>
        match lookupTable db t with
        | none => ⟨st, 500, Body.err ("no such table: " ++ t), historicalTrace db t s sd ed⟩
        | some tbl =>
          ⟨st, 200,
           Body.arr ((sortByDate (tbl.rows.filter
              (fun r => r.name == s && leS sd r.date && leS r.date ed))).map
             (histItem ((pragmaColumns db t).contains "volume"))),
           historicalTrace db t s sd ed⟩
  | _, _, _, _ => missingParams st

/-- GET /api/Finance/query/earning. -/
def query_earning (st : ServerState) (symbol : Option String) : HandlerOut :=
  match symbol with
  | some s =>
    if s = "" then ⟨st, 400, Body.err "Missing symbol", []⟩
    else match st.finance with
      | none => dbNotFound st
      | some db =>
        ⟨st, 200,
         Body.arr ((db.earning.filter (fun r => r.name == s)).map
           (fun r => [("date", r.date), ("price", r.price)])),
         [(earningQueryText, [s])]⟩
  | none => ⟨st, 400, Body.err "Missing symbol", []⟩

/-- GET /api/Finance/query/closing_price.  The SELECT text interpolates the
request's table name; symbol and date are bound parameters.  `fetchone` on
the LIMIT 1 query is the first row of the table matching name and date. -/
def query_closing_price (st : ServerState)
    (symbol date table_name : Option String) : HandlerOut :=
  match symbol, date, table_name with
  | some s, some d, some t =>
    if s = "" ∨ d = "" ∨ t = "" then missingParams st
    else match st.finance with
      | none => dbNotFound st
      | some db =>
        match lookupTable db t with
        | none => ⟨st, 500, Body.err ("no such table: " ++ t), [(closingQueryText t, [s, d])]⟩
        | some tbl =>
          match tbl.rows.find? (fun r => r.name == s && r.date == d) with
          | some r => ⟨st, 200, Body.obj [("price", r.price)], [(closingQueryText t, [s, d])]⟩
          | none => ⟨st, 200, Body.obj [("price", Val.vnull)], [(closingQueryText t, [s, d])]⟩
  | _, _, _ => missingParams st

/-- GET /api/Finance/query/latest_volume.  The PRAGMA is consulted first; if
no `volume` column is reported (also when the table does not exist, since the
PRAGMA then reports no columns) the handler answers `{"volume": null}`
without issuing the SELECT. -/
def query_latest_volume (st : ServerState)
    (symbol table_name : Option String) : HandlerOut :=
  match symbol, table_name with
  | some s, some t =>
    if s = "" ∨ t = "" then missingParams st
    else match st.finance with
      | none => dbNotFound st
      | some db =>
        if (pragmaColumns db t).contains "volume" then
          match lookupTable db t with
          | none => ⟨st, 500, Body.err ("no such table: " ++ t),
              [(pragmaText t, []), (latestVolumeQueryText t, [s])]⟩
          | some tbl =>
            match (sortByDateDesc (tbl.rows.filter (fun r => r.name == s))).head? with
            | some r => ⟨st, 200, Body.obj [("volume", r.volume)],
                [(pragmaText t, []), (latestVolumeQueryText t, [s])]⟩
            | none => ⟨st, 200, Body.obj [("volume", Val.vnull)],
                [(pragmaText t, []), (latestVolumeQueryText t, [s])]⟩
        else
          ⟨st, 200, Body.obj [("volume", Val.vnull)], [(pragmaText t, [])]⟩
  | _, _ => missingParams st

/- ===== User subscription logic (check_user_subscription_status,
handle_payment).  datetime.fromisoformat and datetime.isoformat are
abstracted as a parse function `parseIso : String → Option Int` (None =
raising ValueError) and a serializer `toIso : Int → String`; `now` is the
current UTC time as an Int timestamp. ===== -/

/-- ASCII lower-casing of one character (Python str.lower on the app names
used here). -/
def lowerChar (c : Char) : Char :=
  if 65 ≤ c.toNat ∧ c.toNat ≤ 90 then Char.ofNat (c.toNat + 32) else c

/-- ASCII lower-casing of a string (`app_name.lower()`). -/
def pyLower (s : String) : String := String.mk (s.data.map lowerChar)

/-- Reading `user_row[prefix + "_is_permanent"]`; `none` models the
IndexError raised for a column that does not exist. -/
def permFor (r : UserRow) (pfx : String) : Option Int :=
  if pfx = "finance" then some r.finance_is_permanent
  else if pfx = "onews" then some r.onews_is_permanent
  else none

/-- Reading `user_row[prefix + "_expire_at"]`; `none` models the IndexError
raised for a column that does not exist. -/
def expireFor (r : UserRow) (pfx : String) : Option (Option String) :=
  if pfx = "finance" then some r.finance_expire_at
  else if pfx = "onews" then some r.onews_expire_at
  else none

/-- `check_user_subscription_status(user_row, app_name)`.  The outer `none`
models the exception raised on an unknown app name's columns.  The
permanent flag is checked first; the expire column is consulted only when
it is truthy (a non-empty string), then parsed, and the stored string is
returned when the parsed time is strictly after `now`. -/
def check_user_subscription_status (parseIso : String → Option Int) (now : Int)
    (user_row : UserRow) (app_name : String) : Option (Bool × Option String) :=
  let pfx := pyLower app_name
  match permFor user_row pfx with
  | none => none
  | some perm =>
    if perm = 1 then some (true, some "2099-12-31T23:59:59")
    else match expireFor user_row pfx with
      | none => none
      | some none => some (false, none)
      | some (some s) =>
        if s = "" then some (false, none)
        else match parseIso s with
          | some t => if now < t then some (true, some s) else some (false, none)
          | none => some (false, none)

/-- `timedelta(days=d)` added to a timestamp, in seconds. -/
def addDays (t : Int) (d : Int) : Int := t + d * 86400

/-- Plan B of `handle_payment` (no usable explicit expiry): extend the
current expiry by `days` when it parses to a strictly future time,
otherwise extend from `now`. -/
def planB (parseIso : String → Option Int) (toIso : Int → String) (now : Int)
    (current : Option String) (days : Int) : String :=
  match current with
  | some c =>
    if c = "" then toIso (addDays now days)
    else match parseIso c with
      | some t => if now < t then toIso (addDays t days) else toIso (addDays now days)
      | none => toIso (addDays now days)
  | none => toIso (addDays now days)

/-- `UPDATE users SET <pfx>_expire_at = v WHERE apple_user_id = ...`, effect
on one row. -/
def setExpire (r : UserRow) (pfx : String) (v : String) : UserRow :=
  if pfx = "finance" then { r with finance_expire_at := some v }
  else if pfx = "onews" then { r with onews_expire_at := some v }
  else r

/-- Result of `handle_payment`: the user table after the request, the HTTP
status, and the response's is_subscribed / subscription_expires_at fields
(absent on error responses). -/
structure PayOut where
  users : List UserRow
  status : Int
  is_subscribed : Option Bool
  expires : Option String
deriving DecidableEq

/-- The expiry string stored by `handle_payment`: a truthy (non-empty)
explicit expiry is used verbatim, anything else falls to plan B. -/
def newExpiryStr (parseIso : String → Option Int) (toIso : Int → String) (now : Int)
    (current : Option String) (days : Int) (explicit : Option String) : String :=
  match explicit with
  | some s => if s = "" then planB parseIso toIso now current days else s
  | none => planB parseIso toIso now current days

/-- `handle_payment(app_name)`.  `days?` is the request's `days` field
(default 30), `explicit_expiry` its `explicit_expiry` field.  An unknown
app name makes the UPDATE raise before commit (500, state unchanged). -/
def handle_payment (parseIso : String → Option Int) (toIso : Int → String) (now : Int)
    (users : List UserRow) (app_name : String)
    (user_id : Option String) (days? : Option Int)
    (explicit_expiry : Option String) : PayOut :=
  match user_id with
  | none => ⟨users, 400, none, none⟩
  | some uid =>
    if uid = "" then ⟨users, 400, none, none⟩
    else match users.find? (fun r => r.apple_user_id == uid) with
      | none => ⟨users, 404, none, none⟩
      | some row =>
        match expireFor row (pyLower app_name) with
        | none => ⟨users, 500, none, none⟩
        | some current =>
          ⟨users.map (fun r =>
              if r.apple_user_id == uid then
                setExpire r (pyLower app_name)
                  (newExpiryStr parseIso toIso now current (days?.getD 30) explicit_expiry)
              else r),
           200, some true,
           some (newExpiryStr parseIso toIso now current (days?.getD 30) explicit_expiry)⟩

/- ===== Sync cursor protocol. ===== -/

/-- Modelled from the spec: the operation kind of a change-log entry
(spec section 3, LogEntry.op); the sync endpoint and its stores are not
present under src/. -/
inductive Op where
  | ins
  | upd
  | del
deriving DecidableEq

/-- Modelled from the spec: one record of the append-only change log
(spec section 3, LogEntry); the Change Log Store is not present under src/. -/
structure LogEntry where
  id : Int
  table_name : String
  op : Op
  record_key : List (String × Val)
deriving DecidableEq

/-- Modelled from the spec: the server-to-client wire shape of one change
(spec section 3, ChangeRecord); the sync endpoint is not present under src/. -/
structure ChangeRecord where
  log_id : Int
  table : String
  op : Op
  key : List (String × Val)
  data : Option (List (String × Val))
deriving DecidableEq

/-- Lookup in an association list by string key (first binding wins). -/
def lookupAssoc {α : Type} (xs : List (String × α)) (k : String) : Option α :=
  (xs.find? (fun p => p.1 == k)).map (fun p => p.2)

/-- Modelled from the spec: the static Table Key Schema Registry
(spec section 4.1, keyColumns); not present under src/. -/
def keyColumns (reg : List (String × List String)) (t : String) : Option (List String) :=
  lookupAssoc reg t

/-- Modelled from the spec: building the resolver's key mapping from a log
entry's record_key and the registry's column list; a required column that is
absent or null makes the whole key malformed (spec section 4.4 step 3). -/
def buildKey (record_key : List (String × Val)) (cols : List String) :
    Option (List (String × Val)) :=
  cols.mapM (fun c =>
    match lookupAssoc record_key c with
    | some v => if v = Val.vnull then none else some (c, v)
    | none => none)

/-- A live row matches a key mapping when every key column holds the key's
value. -/
def rowMatches (row : List (String × Val)) (kvs : List (String × Val)) : Bool :=
  kvs.all (fun kv => lookupAssoc row kv.1 == some kv.2)

/-- Modelled from the spec: the Row Resolver (spec section 4.3, resolve);
first match in the underlying table's row order; absent table or zero
matching rows yield "absent".  Not present under src/. -/
def resolve (tables : List (String × List (List (String × Val))))
    (t : String) (kvs : List (String × Val)) : Option (List (String × Val)) :=
  (lookupAssoc tables t).bind (fun rows => rows.find? (fun row => rowMatches row kvs))

/-- Modelled from the spec: per-entry resolution of step 3 of the Sync
Cursor Protocol (spec section 4.4); `none` is a silent drop.  Not present
under src/. -/
def resolveEntry (reg : List (String × List String))
    (tables : List (String × List (List (String × Val))))
    (e : LogEntry) : Option ChangeRecord :=
  match e.op with
  | Op.del => some ⟨e.id, e.table_name, e.op, e.record_key, none⟩
  | _ =>
    match keyColumns reg e.table_name with
    | none => none
    | some cols =>
      match buildKey e.record_key cols with
      | none => none
      | some kvs =>
        match resolve tables e.table_name kvs with
        | none => none
        | some row => some ⟨e.id, e.table_name, e.op, e.record_key, some row⟩

/-- Modelled from the spec: ChangeLogStore.latestPosition (spec section
4.2): the highest id present, 0 when the log is empty.  Not present under
src/. -/
def latestPosition (log : List LogEntry) : Int :=
  log.foldr (fun e acc => max e.id acc) 0

/-- Modelled from the spec: ChangeLogStore.entriesAfter (spec section 4.2):
all entries with id > cursor, in log order.  Not present under src/. -/
def entriesAfter (log : List LogEntry) (cursor : Int) : List LogEntry :=
  log.filter (fun e => decide (cursor < e.id))

/-- Modelled from the spec: parsing the request's `last_id` field
(spec sections 4.4 and 6): absent or non-integer defaults to 0.  Not
present under src/. -/
def parseLastId (v : Option Val) : Int :=
  match v with
  | some (Val.vint n) => n
  | _ => 0

/-- The sync endpoint's response: HTTP status, reconciled cursor, change
batch. -/
structure SyncResponse where
  status : Int
  last_id : Int
  changes : List ChangeRecord
deriving DecidableEq

/-- Modelled from the spec: the Sync Cursor Protocol (spec section 4.4
steps 1-4); not present under src/. -/
def syncRequest (reg : List (String × List String))
    (tables : List (String × List (List (String × Val))))
    (log : List LogEntry) (lastIdField : Option Val) : SyncResponse :=
  let c := parseLastId lastIdField
  let actual := latestPosition log
  let entries := entriesAfter log c
  ⟨200, actual, entries.filterMap (resolveEntry reg tables)⟩

/-- Modelled from the spec: the whole sync request handler, with the
storage-unavailable case of spec section 7 (backing file missing rejects
the request with a server error).  Not present under src/. -/
def syncHandler
    (storage : Option ((List (String × List String)) ×
      (List (String × List (List (String × Val)))) × List LogEntry))
    (lastIdField : Option Val) : SyncResponse :=
  match storage with
  | none => ⟨500, 0, []⟩
  | some (reg, tables, log) => syncRequest reg tables log lastIdField

/- ===== Shared lemmas ===== -/

/-- `find?` returns the head of the filtered list. -/
theorem find?_eq_head?_filterL {α : Type} (p : α → Bool) (l : List α) :
    l.find? p = (l.filter p).head? := by
  induction l with
  | nil => rfl
  | cons x xs ih =>
    by_cases h : p x = true
    · rw [List.find?_cons_of_pos _ h, List.filter_cons_of_pos h, List.head?_cons]
    · rw [List.find?_cons_of_neg _ h, List.filter_cons_of_neg h, ih]

/-- The trace of `query_closing_price` for well-formed parameters. -/
theorem closing_trace (st : ServerState) (s d t : String)
    (hs : s ≠ "") (hd : d ≠ "") (ht : t ≠ "") :
    (query_closing_price st (some s) (some d) (some t)).trace
      = match st.finance with
        | none => []
        | some _ => [(closingQueryText t, [s, d])] := by
  simp only [query_closing_price]
  rw [if_neg (by simp [hs, hd, ht])]
  split
  · rfl
  · split
    · rfl
    · split <;> rfl

/-- The trace of `query_historical` for well-formed parameters. -/
theorem historical_trace_eq (st : ServerState) (s t a b : String)
    (hs : s ≠ "") (ht : t ≠ "") (ha : a ≠ "") (hb : b ≠ "") :
    (query_historical st (some s) (some t) (some a) (some b)).trace
      = match st.finance with
        | none => []
        | some db => historicalTrace db t s a b := by
  simp only [query_historical]
  rw [if_neg (by simp [hs, ht, ha, hb])]
  split
  · rfl
  · split <;> rfl

/-- The trace of `query_latest_volume` for well-formed parameters. -/
theorem latest_volume_trace (st : ServerState) (s t : String)
    (hs : s ≠ "") (ht : t ≠ "") :
    (query_latest_volume st (some s) (some t)).trace
      = match st.finance with
        | none => []
        | some db =>
          if (pragmaColumns db t).contains "volume" then
            [(pragmaText t, []), (latestVolumeQueryText t, [s])]
          else [(pragmaText t, [])] := by
  simp only [query_latest_volume]
  rw [if_neg (by simp [hs, ht])]
  split
  · rfl
  · split
    · split
      · rfl
      · split <;> rfl
    · rfl

/-- The trace of `query_earning` for a well-formed parameter. -/
theorem earning_trace (st : ServerState) (s : String) (hs : s ≠ "") :
    (query_earning st (some s)).trace
      = match st.finance with
        | none => []
        | some _ => [(earningQueryText, [s])] := by
  simp only [query_earning]
  rw [if_neg hs]
  split <;> rfl

/- ===== Claims ===== -/

/-- C1 (amended): for every Finance query request whose required parameters
are all present and non-empty, if the Finance database file is missing
(`st.finance = none`) then each of the five query operations answers with
HTTP 500 and the bare error payload `{"error": "Database not found"}`, so no
row data is returned. -/
theorem C1_db_missing (st : ServerState) (hdb : st.finance = none)
    (s t d sd ed : String) (hs : s ≠ "") (ht : t ≠ "") (hd : d ≠ "")
    (hsd : sd ≠ "") (hed : ed ≠ "") :
    ((query_market_cap st).status = 500
      ∧ (query_market_cap st).body = Body.err "Database not found")
    ∧ ((query_historical st (some s) (some t) (some sd) (some ed)).status = 500
      ∧ (query_historical st (some s) (some t) (some sd) (some ed)).body
        = Body.err "Database not found")
    ∧ ((query_earning st (some s)).status = 500
      ∧ (query_earning st (some s)).body = Body.err "Database not found")
    ∧ ((query_closing_price st (some s) (some d) (some t)).status = 500
      ∧ (query_closing_price st (some s) (some d) (some t)).body
        = Body.err "Database not found")
    ∧ ((query_latest_volume st (some s) (some t)).status = 500
      ∧ (query_latest_volume st (some s) (some t)).body
        = Body.err "Database not found") := by
  have h1 : query_market_cap st = dbNotFound st := by
    simp only [query_market_cap]
    rw [hdb]
  have h2 : query_historical st (some s) (some t) (some sd) (some ed) = dbNotFound st := by
    simp only [query_historical]
    rw [if_neg (by simp [hs, ht, hsd, hed]), hdb]
  have h3 : query_earning st (some s) = dbNotFound st := by
    simp only [query_earning]
    rw [if_neg hs, hdb]
  have h4 : query_closing_price st (some s) (some d) (some t) = dbNotFound st := by
    simp only [query_closing_price]
    rw [if_neg (by simp [hs, hd, ht]), hdb]
  have h5 : query_latest_volume st (some s) (some t) = dbNotFound st := by
    simp only [query_latest_volume]
    rw [if_neg (by simp [hs, ht]), hdb]
  exact ⟨⟨by rw [h1]; rfl, by rw [h1]; rfl⟩, ⟨by rw [h2]; rfl, by rw [h2]; rfl⟩,
    ⟨by rw [h3]; rfl, by rw [h3]; rfl⟩, ⟨by rw [h4]; rfl, by rw [h4]; rfl⟩,
    ⟨by rw [h5]; rfl, by rw [h5]; rfl⟩⟩

/-- C1 witness: a concrete instantiation of `C1_db_missing`. -/
theorem C1_witness :
    ((query_market_cap ⟨none, []⟩).status = 500
      ∧ (query_market_cap ⟨none, []⟩).body = Body.err "Database not found")
    ∧ ((query_historical ⟨none, []⟩ (some "AAPL") (some "AAPL") (some "2024-01-01")
          (some "2024-02-01")).status = 500
      ∧ (query_historical ⟨none, []⟩ (some "AAPL") (some "AAPL") (some "2024-01-01")
          (some "2024-02-01")).body = Body.err "Database not found")
    ∧ ((query_earning ⟨none, []⟩ (some "AAPL")).status = 500
      ∧ (query_earning ⟨none, []⟩ (some "AAPL")).body = Body.err "Database not found")
    ∧ ((query_closing_price ⟨none, []⟩ (some "AAPL") (some "2024-01-02")
          (some "AAPL")).status = 500
      ∧ (query_closing_price ⟨none, []⟩ (some "AAPL") (some "2024-01-02")
          (some "AAPL")).body = Body.err "Database not found")
    ∧ ((query_latest_volume ⟨none, []⟩ (some "AAPL") (some "AAPL")).status = 500
      ∧ (query_latest_volume ⟨none, []⟩ (some "AAPL") (some "AAPL")).body
        = Body.err "Database not found") :=
  C1_db_missing ⟨none, []⟩ rfl "AAPL" "AAPL" "2024-01-02" "2024-01-01" "2024-02-01"
    (by decide) (by decide) (by decide) (by decide) (by decide)

/-- C1 counterexample: with the database file missing, a `query_historical`
request with its parameters absent is rejected with HTTP 400 ("Missing
parameters"), not with the claimed server-error 500. -/
theorem C1_counterexample :
    (query_historical ⟨none, []⟩ none none none none).status = 400
    ∧ (query_historical ⟨none, []⟩ none none none none).body
      = Body.err "Missing parameters"
    ∧ ¬ (query_historical ⟨none, []⟩ none none none none).status = 500 := by
  refine ⟨rfl, rfl, by decide⟩

/-- C2 counterexample: the statement submitted by `query_closing_price` is
built by interpolating the request-supplied table name into the SQL text
(shown at an injection-shaped table name), and the statement text is not
independent of that request input. -/
theorem C2_counterexample :
    (query_closing_price ⟨some ⟨[], [], []⟩, []⟩ (some "AAPL") (some "2024-01-02")
        (some "X\"; DROP TABLE users; --")).trace
      = [("SELECT price FROM \"X\"; DROP TABLE users; --\" WHERE name = ? AND date = ? LIMIT 1",
          ["AAPL", "2024-01-02"])]
    ∧ closingQueryText "A" ≠ closingQueryText "B" := by
  refine ⟨rfl, by decide⟩

/-- C2 (amended): untrusted row values (symbol, date, range bounds) are
always passed as bound parameters and never interpolated into the statement
text — the texts of the statements a handler submits are independent of
those values and equal to the fixed templates instantiated at the
request-supplied table name; the table name itself, however, is interpolated
into the text without validation. -/
theorem C2_statement_texts (st : ServerState) (s1 s2 d1 d2 a1 a2 b1 b2 t : String)
    (hs1 : s1 ≠ "") (hs2 : s2 ≠ "") (hd1 : d1 ≠ "") (hd2 : d2 ≠ "")
    (ha1 : a1 ≠ "") (ha2 : a2 ≠ "") (hb1 : b1 ≠ "") (hb2 : b2 ≠ "") (ht : t ≠ "") :
    ((query_closing_price st (some s1) (some d1) (some t)).trace.map Prod.fst
      = (query_closing_price st (some s2) (some d2) (some t)).trace.map Prod.fst)
    ∧ (∀ q ∈ (query_closing_price st (some s1) (some d1) (some t)).trace.map Prod.fst,
        q = closingQueryText t)
    ∧ ((query_historical st (some s1) (some t) (some a1) (some b1)).trace.map Prod.fst
      = (query_historical st (some s2) (some t) (some a2) (some b2)).trace.map Prod.fst)
    ∧ (∀ q ∈ (query_historical st (some s1) (some t) (some a1) (some b1)).trace.map Prod.fst,
        q = pragmaText t ∨ q = historicalQueryText true t ∨ q = historicalQueryText false t)
    ∧ ((query_latest_volume st (some s1) (some t)).trace.map Prod.fst
      = (query_latest_volume st (some s2) (some t)).trace.map Prod.fst)
    ∧ (∀ q ∈ (query_latest_volume st (some s1) (some t)).trace.map Prod.fst,
        q = pragmaText t ∨ q = latestVolumeQueryText t)
    ∧ (∀ q ∈ (query_earning st (some s1)).trace.map Prod.fst, q = earningQueryText) := by
  refine ⟨?_, ?_, ?_, ?_, ?_, ?_, ?_⟩
  · rw [closing_trace st s1 d1 t hs1 hd1 ht, closing_trace st s2 d2 t hs2 hd2 ht]
    cases st.finance <;> rfl
  · rw [closing_trace st s1 d1 t hs1 hd1 ht]
    cases st.finance <;> simp
  · rw [historical_trace_eq st s1 t a1 b1 hs1 ht ha1 hb1,
      historical_trace_eq st s2 t a2 b2 hs2 ht ha2 hb2]
    cases st.finance <;> simp [historicalTrace]
  · rw [historical_trace_eq st s1 t a1 b1 hs1 ht ha1 hb1]
    cases hF : st.finance with
    | none => simp
    | some db =>
      intro q hq
      simp only [historicalTrace, List.map_cons, List.map_nil, List.mem_cons,
        List.not_mem_nil, or_false] at hq
      rcases hq with h | h
      · exact Or.inl h
      · cases hV : (pragmaColumns db t).contains "volume"
        · rw [hV] at h
          exact Or.inr (Or.inr h)
        · rw [hV] at h
          exact Or.inr (Or.inl h)
  · rw [latest_volume_trace st s1 t hs1 ht, latest_volume_trace st s2 t hs2 ht]
    cases st.finance with
    | none => rfl
    | some db =>
      dsimp only
      cases hV : (pragmaColumns db t).contains "volume" <;> simp [hV]
  · rw [latest_volume_trace st s1 t hs1 ht]
    cases hF : st.finance with
    | none => simp
    | some db =>
      dsimp only
      cases hV : (pragmaColumns db t).contains "volume" <;> simp [hV]
  · rw [earning_trace st s1 hs1]
    cases st.finance <;> simp

/-- C2 witness: a concrete instantiation of `C2_statement_texts`. -/
theorem C2_witness :
    ((query_closing_price ⟨some ⟨[], [], []⟩, []⟩ (some "A") (some "d1") (some "T")).trace.map Prod.fst
      = (query_closing_price ⟨some ⟨[], [], []⟩, []⟩ (some "B") (some "d2") (some "T")).trace.map Prod.fst)
    ∧ (∀ q ∈ (query_closing_price ⟨some ⟨[], [], []⟩, []⟩ (some "A") (some "d1") (some "T")).trace.map Prod.fst,
        q = closingQueryText "T")
    ∧ ((query_historical ⟨some ⟨[], [], []⟩, []⟩ (some "A") (some "T") (some "a1") (some "b1")).trace.map Prod.fst
      = (query_historical ⟨some ⟨[], [], []⟩, []⟩ (some "B") (some "T") (some "a2") (some "b2")).trace.map Prod.fst)
    ∧ (∀ q ∈ (query_historical ⟨some ⟨[], [], []⟩, []⟩ (some "A") (some "T") (some "a1") (some "b1")).trace.map Prod.fst,
        q = pragmaText "T" ∨ q = historicalQueryText true "T" ∨ q = historicalQueryText false "T")
    ∧ ((query_latest_volume ⟨some ⟨[], [], []⟩, []⟩ (some "A") (some "T")).trace.map Prod.fst
      = (query_latest_volume ⟨some ⟨[], [], []⟩, []⟩ (some "B") (some "T")).trace.map Prod.fst)
    ∧ (∀ q ∈ (query_latest_volume ⟨some ⟨[], [], []⟩, []⟩ (some "A") (some "T")).trace.map Prod.fst,
        q = pragmaText "T" ∨ q = latestVolumeQueryText "T")
    ∧ (∀ q ∈ (query_earning ⟨some ⟨[], [], []⟩, []⟩ (some "A")).trace.map Prod.fst,
        q = earningQueryText) :=
  C2_statement_texts ⟨some ⟨[], [], []⟩, []⟩ "A" "B" "d1" "d2" "a1" "a2" "b1" "b2" "T"
    (by decide) (by decide) (by decide) (by decide) (by decide) (by decide)
    (by decide) (by decide) (by decide)

/-- C3: for `query_closing_price` with well-formed parameters against an
existing table, the handler always answers 200; when exactly one row matches
(symbol, date) the body carries that row's price, when zero rows match the
body is `{"price": null}` (a success, not an error), and when several rows
match the body carries the first match in the underlying table's row order
(the LIMIT 1 fetch). -/
theorem C3_closing_price (st : ServerState) (db : FinanceDB) (tbl : PriceTable)
    (s d t : String) (hs : s ≠ "") (hd : d ≠ "") (ht : t ≠ "")
    (hdb : st.finance = some db) (htab : lookupTable db t = some tbl) :
    (query_closing_price st (some s) (some d) (some t)).status = 200
    ∧ (∀ r, tbl.rows.filter (fun r => r.name == s && r.date == d) = [r] →
        (query_closing_price st (some s) (some d) (some t)).body
          = Body.obj [("price", r.price)])
    ∧ (tbl.rows.filter (fun r => r.name == s && r.date == d) = [] →
        (query_closing_price st (some s) (some d) (some t)).body
          = Body.obj [("price", Val.vnull)])
    ∧ (∀ r rest, tbl.rows.filter (fun r => r.name == s && r.date == d) = r :: rest →
        (query_closing_price st (some s) (some d) (some t)).body
          = Body.obj [("price", r.price)]) := by
  have hq : query_closing_price st (some s) (some d) (some t)
      = match (tbl.rows.filter (fun r => r.name == s && r.date == d)).head? with
        | some r => ⟨st, 200, Body.obj [("price", r.price)], [(closingQueryText t, [s, d])]⟩
        | none => ⟨st, 200, Body.obj [("price", Val.vnull)], [(closingQueryText t, [s, d])]⟩ := by
    simp only [query_closing_price]
    rw [if_neg (by simp [hs, hd, ht]), hdb]
    dsimp only
    rw [htab]
    dsimp only
    rw [find?_eq_head?_filterL]
  refine ⟨?_, ?_, ?_, ?_⟩
  · rw [hq]
    cases (tbl.rows.filter (fun r => r.name == s && r.date == d)).head? <;> rfl
  · intro r hr
    rw [hq, hr]
    rfl
  · intro hr
    rw [hq, hr]
    rfl
  · intro r rest hr
    rw [hq, hr]
    rfl

/-- C3 witness: a table with two rows matching (X, 2024-01-01) yields the
first row's price; a symbol with no match yields `{"price": null}` with
status 200. -/
theorem C3_witness :
    (query_closing_price
        ⟨some ⟨[], [], [("P", ⟨false,
          [⟨1, "X", "2024-01-01", Val.vint 10, Val.vnull⟩,
           ⟨2, "X", "2024-01-01", Val.vint 20, Val.vnull⟩]⟩)]⟩, []⟩
        (some "X") (some "2024-01-01") (some "P")).status = 200
    ∧ (query_closing_price
        ⟨some ⟨[], [], [("P", ⟨false,
          [⟨1, "X", "2024-01-01", Val.vint 10, Val.vnull⟩,
           ⟨2, "X", "2024-01-01", Val.vint 20, Val.vnull⟩]⟩)]⟩, []⟩
        (some "X") (some "2024-01-01") (some "P")).body
      = Body.obj [("price", Val.vint 10)] := by
  have h := C3_closing_price
    ⟨some ⟨[], [], [("P", ⟨false,
      [⟨1, "X", "2024-01-01", Val.vint 10, Val.vnull⟩,
       ⟨2, "X", "2024-01-01", Val.vint 20, Val.vnull⟩]⟩)]⟩, []⟩
    ⟨[], [], [("P", ⟨false,
      [⟨1, "X", "2024-01-01", Val.vint 10, Val.vnull⟩,
       ⟨2, "X", "2024-01-01", Val.vint 20, Val.vnull⟩]⟩)]⟩
    ⟨false, [⟨1, "X", "2024-01-01", Val.vint 10, Val.vnull⟩,
             ⟨2, "X", "2024-01-01", Val.vint 20, Val.vnull⟩]⟩
    "X" "2024-01-01" "P" (by decide) (by decide) (by decide) rfl (by decide)
  exact ⟨h.1, h.2.2.2 ⟨1, "X", "2024-01-01", Val.vint 10, Val.vnull⟩
    [⟨2, "X", "2024-01-01", Val.vint 20, Val.vnull⟩] (by decide)⟩

/-- C4: the five Finance query handlers perform no writes: for every input
the server state in the handler's output equals the state it was given. -/
theorem C4_read_only (st : ServerState) (p1 p2 p3 p4 p5 p6 p7 p8 p9 p10 : Option String) :
    (query_market_cap st).st = st
    ∧ (query_historical st p1 p2 p3 p4).st = st
    ∧ (query_earning st p5).st = st
    ∧ (query_closing_price st p6 p7 p8).st = st
    ∧ (query_latest_volume st p9 p10).st = st := by
  refine ⟨?_, ?_, ?_, ?_, ?_⟩
  · unfold query_market_cap
    repeat' split
    all_goals rfl
  · unfold query_historical
    repeat' split
    all_goals rfl
  · unfold query_earning
    repeat' split
    all_goals rfl
  · unfold query_closing_price
    repeat' split
    all_goals rfl
  · unfold query_latest_volume
    repeat' split
    all_goals rfl

/-- Every emitted change record carries the log id of the entry it resolves. -/
theorem resolveEntry_log_id (reg : List (String × List String))
    (tables : List (String × List (List (String × Val))))
    (e : LogEntry) (r : ChangeRecord)
    (h : resolveEntry reg tables e = some r) : r.log_id = e.id := by
  simp only [resolveEntry] at h
  split at h
  · injection h with h2
    rw [← h2]
  · split at h
    · exact Option.noConfusion h
    · split at h
      · exact Option.noConfusion h
      · split at h
        · exact Option.noConfusion h
        · injection h with h2
          rw [← h2]

/-- When every entry of a list resolves, the batch's log ids are exactly the
entries' ids, in order. -/
theorem changes_ids (reg : List (String × List String))
    (tables : List (String × List (List (String × Val))))
    (l : List LogEntry) (hall : ∀ e ∈ l, (resolveEntry reg tables e).isSome) :
    (l.filterMap (resolveEntry reg tables)).map ChangeRecord.log_id
      = l.map LogEntry.id := by
  induction l with
  | nil => rfl
  | cons x xs ih =>
    have hx := hall x (by simp)
    rcases hre : resolveEntry reg tables x with _ | r
    · rw [hre] at hx
      exact absurd hx (by simp)
    · rw [List.filterMap_cons, hre, List.map_cons, List.map_cons,
        resolveEntry_log_id reg tables x r hre,
        ih (fun e he => hall e (by simp [he]))]

/-- C5: the `last_id` returned by a sync equals the change log's latest
position, computed independently of the client-supplied cursor field; in
particular two requests with different cursor fields get the same
`last_id`, so the client's value is never echoed back. -/
theorem C5_latest_independent (reg : List (String × List String))
    (tables : List (String × List (List (String × Val))))
    (log : List LogEntry) (v v2 : Option Val) :
    (syncRequest reg tables log v).last_id = latestPosition log
    ∧ (syncRequest reg tables log v).last_id = (syncRequest reg tables log v2).last_id :=
  ⟨rfl, rfl⟩

/-- C6: with strictly increasing log ids, a sync with cursor c selects
exactly the entries with id > c, keeps them in ascending id order, and —
when every selected entry resolves — returns their change records with
exactly those ids in that order. -/
theorem C6_no_gap (reg : List (String × List String))
    (tables : List (String × List (List (String × Val))))
    (log : List LogEntry) (v : Option Val)
    (hsorted : log.Pairwise (fun a b => a.id < b.id)) :
    (∀ e, e ∈ entriesAfter log (parseLastId v) ↔ (e ∈ log ∧ parseLastId v < e.id))
    ∧ (entriesAfter log (parseLastId v)).Pairwise (fun a b => a.id < b.id)
    ∧ ((∀ e ∈ entriesAfter log (parseLastId v), (resolveEntry reg tables e).isSome) →
        (syncRequest reg tables log v).changes.map ChangeRecord.log_id
          = (entriesAfter log (parseLastId v)).map LogEntry.id) := by
  refine ⟨?_, ?_, ?_⟩
  · intro e
    simp [entriesAfter, List.mem_filter]
  · exact hsorted.sublist (List.filter_sublist _)
  · intro hall
    have hch : (syncRequest reg tables log v).changes
        = (entriesAfter log (parseLastId v)).filterMap (resolveEntry reg tables) := rfl
    rw [hch]
    exact changes_ids reg tables _ hall

/-- C6 witness: log entries 5, 6, 7 with cursor 4 are delivered as 5, 6, 7. -/
theorem C6_witness :
    ([⟨5, "T", Op.del, []⟩, ⟨6, "T", Op.del, []⟩, ⟨7, "T", Op.del, []⟩] :
        List LogEntry).Pairwise (fun a b => a.id < b.id)
    ∧ (syncRequest [] [] [⟨5, "T", Op.del, []⟩, ⟨6, "T", Op.del, []⟩, ⟨7, "T", Op.del, []⟩]
        (some (Val.vint 4))).changes.map ChangeRecord.log_id = [5, 6, 7] := by
  have hs : ([⟨5, "T", Op.del, []⟩, ⟨6, "T", Op.del, []⟩, ⟨7, "T", Op.del, []⟩] :
      List LogEntry).Pairwise (fun a b => a.id < b.id) := by decide
  refine ⟨hs, ?_⟩
  have h := (C6_no_gap [] []
    [⟨5, "T", Op.del, []⟩, ⟨6, "T", Op.del, []⟩, ⟨7, "T", Op.del, []⟩]
    (some (Val.vint 4)) hs).2.2 (by decide)
  exact h.trans (by decide)

/-- Modelled from the spec: the three per-entry resolution anomalies of
spec section 7 for an Insert/Update entry — unregistered table, malformed
key, row already gone. -/
def resolutionAnomaly (reg : List (String × List String))
    (tables : List (String × List (List (String × Val))))
    (e : LogEntry) : Prop :=
  (e.op = Op.ins ∨ e.op = Op.upd) ∧
  (keyColumns reg e.table_name = none
    ∨ (∃ cols, keyColumns reg e.table_name = some cols
        ∧ buildKey e.record_key cols = none)
    ∨ (∃ cols kvs, keyColumns reg e.table_name = some cols
        ∧ buildKey e.record_key cols = some kvs
        ∧ resolve tables e.table_name kvs = none))

/-- C7: a sync over present storage always succeeds (status 200) and
returns exactly the resolvable entries' records; any entry hit by a
per-entry resolution anomaly resolves to `none`, i.e. is dropped from the
batch rather than failing the request. -/
theorem C7_drop_silent (reg : List (String × List String))
    (tables : List (String × List (List (String × Val))))
    (log : List LogEntry) (v : Option Val) :
    (syncHandler (some (reg, tables, log)) v).status = 200
    ∧ (syncHandler (some (reg, tables, log)) v).changes
      = (entriesAfter log (parseLastId v)).filterMap (resolveEntry reg tables)
    ∧ (∀ e, resolutionAnomaly reg tables e → resolveEntry reg tables e = none) := by
  refine ⟨rfl, rfl, ?_⟩
  rintro e ⟨hop, hcase⟩
  rcases hop with h | h <;>
  · rcases hcase with hk | ⟨cols, hk, hb⟩ | ⟨cols, kvs, hk, hb, hr⟩
    · simp [resolveEntry, h, hk]
    · simp [resolveEntry, h, hk, hb]
    · simp [resolveEntry, h, hk, hb, hr]

/-- C7 witness: an Insert entry for a table with no registered key schema
is dropped while the request still succeeds. -/
theorem C7_witness :
    (syncHandler (some ([], [], [⟨1, "T", Op.ins, []⟩])) (some (Val.vint 0))).status = 200
    ∧ resolveEntry [] [] ⟨1, "T", Op.ins, []⟩ = none :=
  ⟨(C7_drop_silent [] [] [⟨1, "T", Op.ins, []⟩] (some (Val.vint 0))).1,
   (C7_drop_silent [] [] [⟨1, "T", Op.ins, []⟩] (some (Val.vint 0))).2.2
     ⟨1, "T", Op.ins, []⟩ ⟨Or.inl rfl, Or.inl rfl⟩⟩

/-- C8: a sync request whose `last_id` field is absent or not an integer is
processed with the cursor defaulting to 0, i.e. exactly as a request with
`last_id = 0`. -/
theorem C8_default_cursor
    (storage : Option ((List (String × List String)) ×
      (List (String × List (List (String × Val)))) × List LogEntry))
    (v : Option Val)
    (h : v = none ∨ ∀ n : Int, v ≠ some (Val.vint n)) :
    parseLastId v = 0 ∧ syncHandler storage v = syncHandler storage (some (Val.vint 0)) := by
  have hp : parseLastId v = 0 := by
    rcases h with h | h
    · rw [h]
      rfl
    · rcases v with _ | val
      · rfl
      · rcases val with _ | n | s
        · rfl
        · exact absurd rfl (h n)
        · rfl
  refine ⟨hp, ?_⟩
  rcases storage with _ | ⟨reg, tables, log⟩
  · rfl
  · show syncRequest reg tables log v = syncRequest reg tables log (some (Val.vint 0))
    simp only [syncRequest, hp]
    rfl

/-- C8 witness: a string-valued `last_id` is treated exactly as cursor 0. -/
theorem C8_witness :
    parseLastId (some (Val.vstr "abc")) = 0
    ∧ syncHandler (some ([], [], [⟨1, "T", Op.del, []⟩])) (some (Val.vstr "abc"))
      = syncHandler (some ([], [], [⟨1, "T", Op.del, []⟩])) (some (Val.vint 0)) :=
  C8_default_cursor (some ([], [], [⟨1, "T", Op.del, []⟩])) (some (Val.vstr "abc"))
    (Or.inr (fun n hn => by simp at hn))

/-- The subscription status as claim C9 states it: a permanent flag equal
to 1 wins with the fixed far-future expiry regardless of the stored expiry;
otherwise the user is subscribed exactly when the stored expiry parses to a
time strictly after now, in which case the stored string is returned;
every other case (no value, unparseable, not in the future) is
(false, none). -/
def claimedStatus (parseIso : String → Option Int) (now : Int)
    (perm : Int) (expire : Option String) : Bool × Option String :=
  if perm = 1 then (true, some "2099-12-31T23:59:59")
  else match expire with
    | some s =>
      match parseIso s with
      | some tm => if now < tm then (true, some s) else (false, none)
      | none => (false, none)
    | none => (false, none)

/-- C9: for either registered app, `check_user_subscription_status` computes
exactly the claimed status from the row's per-app permanent flag and stored
expiry (given that the ISO parser rejects the empty string, as
`datetime.fromisoformat` does). -/
theorem C9_subscription_status (parseIso : String → Option Int) (now : Int)
    (row : UserRow) (app : String) (perm : Int) (expire : Option String)
    (hp : permFor row (pyLower app) = some perm)
    (he : expireFor row (pyLower app) = some expire)
    (h0 : parseIso "" = none) :
    check_user_subscription_status parseIso now row app
      = some (claimedStatus parseIso now perm expire) := by
  simp only [check_user_subscription_status, hp, he]
  unfold claimedStatus
  by_cases hperm : perm = 1
  · rw [if_pos hperm, if_pos hperm]
  · rw [if_neg hperm, if_neg hperm]
    cases expire with
    | none => rfl
    | some s =>
      dsimp only
      by_cases hs : s = ""
      · subst hs
        simp [h0]
      · rw [if_neg hs]
        cases hps : parseIso s with
        | none => rfl
        | some tm =>
          dsimp only
          by_cases hlt : now < tm
          · rw [if_pos hlt, if_pos hlt]
          · rw [if_neg hlt, if_neg hlt]

/-- A concrete ISO parser for witnesses: recognizes one fixed timestamp. -/
def pIso0 : String → Option Int :=
  fun s => if s = "2030-01-01T00:00:00" then some 100 else none

/-- A concrete user row for witnesses: not permanent, Finance expiry set. -/
def row9 : UserRow :=
  ⟨"u1", "2024-01-01T00:00:00", none, some "2030-01-01T00:00:00", 0, none, 0⟩

/-- C9 witness: a non-permanent user with a future Finance expiry is
subscribed with exactly the stored string. -/
theorem C9_witness :
    check_user_subscription_status pIso0 0 row9 "Finance"
      = some (claimedStatus pIso0 0 0 (some "2030-01-01T00:00:00"))
    ∧ claimedStatus pIso0 0 0 (some "2030-01-01T00:00:00")
      = (true, some "2030-01-01T00:00:00") :=
  ⟨C9_subscription_status pIso0 0 row9 "Finance" 0 (some "2030-01-01T00:00:00")
      (by decide) (by decide) (by decide),
   by decide⟩

/-- The per-app stored expiry as claim C10 reads it. -/
def expireForApp (row : UserRow) (app : String) : Option String :=
  if app = "Finance" then row.finance_expire_at else row.onews_expire_at

/-- The stored expiry as claim C10 states it (amended: a supplied explicit
expiry is used verbatim only when non-empty; an empty string is treated as
absent): with no usable explicit expiry, the old expiry plus `days` when it
parses strictly in the future, otherwise now plus `days`. -/
def claimedPaymentExpiry (parseIso : String → Option Int) (toIso : Int → String)
    (now : Int) (oldExpiry : Option String) (days : Int)
    (explicit : Option String) : String :=
  match explicit with
  | some s => s
  | none =>
    match oldExpiry with
    | some c =>
      match parseIso c with
      | some tm => if now < tm then toIso (addDays tm days) else toIso (addDays now days)
      | none => toIso (addDays now days)
    | none => toIso (addDays now days)

/-- Plan B agrees with the claimed no-explicit expiry when the parser
rejects the empty string. -/
theorem planB_claimed (parseIso : String → Option Int) (toIso : Int → String)
    (now : Int) (current : Option String) (days : Int)
    (h0 : parseIso "" = none) :
    planB parseIso toIso now current days
      = claimedPaymentExpiry parseIso toIso now current days none := by
  unfold planB claimedPaymentExpiry
  cases current with
  | none => rfl
  | some c =>
    dsimp only
    by_cases hc : c = ""
    · subst hc
      simp [h0]
    · rw [if_neg hc]

/-- C10 (amended): for an existing user of a registered app, a payment with
a non-empty explicit expiry stores it verbatim (no validation); with no
explicit expiry (or an empty one, which Python truthiness treats as
absent), the stored expiry is the old expiry plus `days` (default 30) when
the old value parses strictly in the future, and now plus `days` otherwise;
the response is 200 with is_subscribed true and exactly the stored value,
and the user table is updated at exactly the matching rows. -/
theorem C10_payment (parseIso : String → Option Int) (toIso : Int → String)
    (now : Int) (users : List UserRow) (app uid : String)
    (days? : Option Int) (explicit : Option String) (row : UserRow)
    (happ : app = "Finance" ∨ app = "ONews")
    (huid : uid ≠ "")
    (hrow : users.find? (fun r => r.apple_user_id == uid) = some row)
    (hex : explicit ≠ some "")
    (h0 : parseIso "" = none) :
    (handle_payment parseIso toIso now users app (some uid) days? explicit).status = 200
    ∧ (handle_payment parseIso toIso now users app (some uid) days? explicit).is_subscribed
      = some true
    ∧ (handle_payment parseIso toIso now users app (some uid) days? explicit).expires
      = some (claimedPaymentExpiry parseIso toIso now (expireForApp row app)
          (days?.getD 30) explicit)
    ∧ (handle_payment parseIso toIso now users app (some uid) days? explicit).users
      = users.map (fun r =>
          if r.apple_user_id == uid then
            setExpire r (pyLower app)
              (claimedPaymentExpiry parseIso toIso now (expireForApp row app)
                (days?.getD 30) explicit)
          else r) := by
  have hnew : newExpiryStr parseIso toIso now (expireForApp row app) (days?.getD 30) explicit
      = claimedPaymentExpiry parseIso toIso now (expireForApp row app) (days?.getD 30) explicit := by
    unfold newExpiryStr
    cases explicit with
    | none => exact planB_claimed parseIso toIso now _ _ h0
    | some s =>
      dsimp only
      have hs : s ≠ "" := by
        intro hcon
        exact hex (by rw [hcon])
      rw [if_neg hs]
      rfl
  rcases happ with h | h <;> subst h
  · have hef : expireFor row (pyLower "Finance") = some row.finance_expire_at := rfl
    have heq : expireForApp row "Finance" = row.finance_expire_at := rfl
    rw [heq] at hnew
    simp only [handle_payment, if_neg huid, hrow, hef, heq, hnew]
    exact ⟨trivial, trivial, trivial, trivial⟩
  · have hef : expireFor row (pyLower "ONews") = some row.onews_expire_at := rfl
    have heq : expireForApp row "ONews" = row.onews_expire_at := rfl
    rw [heq] at hnew
    simp only [handle_payment, if_neg huid, hrow, hef, heq, hnew]
    exact ⟨trivial, trivial, trivial, trivial⟩

/-- A parser that rejects everything, for the C10 counterexample and
witness (consistent with fromisoformat on the strings it is applied to). -/
def cxParse : String → Option Int := fun _ => none

/-- A serializer that marks its argument, never producing the empty string
(as datetime.isoformat never does). -/
def cxIso : Int → String := fun tm => "ts:" ++ toString tm

/-- A concrete stored user for the C10 counterexample and witness. -/
def cxRow : UserRow := ⟨"u1", "2024-01-01T00:00:00", none, none, 0, none, 0⟩

/-- C10 counterexample: a payment request that supplies
`explicit_expiry = ""` does not store it verbatim — Python truthiness sends
the empty string down the plan-B branch, so the stored and reported expiry
is now plus 30 days, not the supplied string. -/
theorem C10_counterexample :
    (handle_payment cxParse cxIso 0 [cxRow] "Finance" (some "u1") none (some "")).expires
      = some "ts:2592000"
    ∧ (handle_payment cxParse cxIso 0 [cxRow] "Finance" (some "u1") none (some "")).expires
      ≠ some ""
    ∧ (handle_payment cxParse cxIso 0 [cxRow] "Finance" (some "u1") none (some "")).users
      = [⟨"u1", "2024-01-01T00:00:00", none, some "ts:2592000", 0, none, 0⟩] := by
  refine ⟨by decide, by decide, by decide⟩

/-- C10 witness: a non-empty explicit expiry is stored verbatim and
reported with a 200 subscribed response. -/
theorem C10_witness :
    (handle_payment cxParse cxIso 0 [cxRow] "Finance" (some "u1") none
        (some "2031-01-01T00:00:00")).status = 200
    ∧ (handle_payment cxParse cxIso 0 [cxRow] "Finance" (some "u1") none
        (some "2031-01-01T00:00:00")).expires
      = some (claimedPaymentExpiry cxParse cxIso 0 (expireForApp cxRow "Finance") 30
          (some "2031-01-01T00:00:00"))
    ∧ claimedPaymentExpiry cxParse cxIso 0 (expireForApp cxRow "Finance") 30
        (some "2031-01-01T00:00:00") = "2031-01-01T00:00:00" :=
  ⟨(C10_payment cxParse cxIso 0 [cxRow] "Finance" "u1" none
      (some "2031-01-01T00:00:00") cxRow (Or.inl rfl) (by decide) (by decide)
      (by decide) rfl).1,
   (C10_payment cxParse cxIso 0 [cxRow] "Finance" "u1" none
      (some "2031-01-01T00:00:00") cxRow (Or.inl rfl) (by decide) (by decide)
      (by decide) rfl).2.2.1,
   by decide⟩
